import Mathlib

/-!
Verification of the callback / redirect / logout logic of
`mozilla_django_oidc/views.py` (OIDC relying-party views).

The embedding models:
  * the per-request data (`Request`: query parameters, session, user
    authentication flag) — query parameters are an association list as in
    Django's `request.GET`, the session is a record of the four logical
    keys this code touches (`Option` = key absent);
  * the resolved settings with the default values used at each
    `import_from_settings` call site in the source;
  * `OIDCAuthenticationCallbackView.get` (with its helpers
    `login_failure`, `login_success`, `failure_url`, `success_url`) as the
    function `callbackGet`, which also records, as part of its result, the
    exact argument of the `auth.authenticate` call when one is made;
  * `get_next_url`, parameterised by Django's `is_safe_url` (an external
    framework function, taken as an abstract total predicate);
  * `OIDCLogoutView.post` plus Django's `View.dispatch` rule
    (a verb is served when it is listed in `http_method_names` AND the
    class defines a handler of that name; otherwise the response is
    HTTP 405 method-not-allowed).

Python truthiness of strings ("" is falsy) is modelled by `truthy`.
`time.time()` is modelled by an explicit `now : Nat` parameter.
-/

namespace MozillaDjangoOidc

/-- Session keys the views read or write (`Option` = key absent).
`oidc_id_token_expiration` stores an epoch timestamp (modelled as `Nat`). -/
structure Session where
  oidc_nonce : Option String := none
  oidc_state : Option String := none
  oidc_login_next : Option String := none
  oidc_id_token_expiration : Option Nat := none
deriving Repr, DecidableEq

/-- The slice of a Django user object the views look at. -/
structure User where
  is_active : Bool
deriving Repr, DecidableEq

/-- One incoming HTTP request: `request.GET` as an association list,
the session, the `request.user.is_authenticated` flag, and the host /
transport data used by `get_next_url`. -/
structure Request where
  query : List (String × String) := []
  session : Session := {}
  user_is_authenticated : Bool := false
  host : String := ""
  secure : Bool := false
deriving Repr, DecidableEq

/-- Python truthiness of an optional string: absent and `""` are falsy. -/
def truthy : Option String → Bool
  | none => false
  | some s => !(s == "")

/-- Models `request.GET.get(name)`. -/
def getParam (q : List (String × String)) (name : String) : Option String :=
  q.lookup name

/-- Models `name in request.GET`. -/
def hasParam (q : List (String × String)) (name : String) : Bool :=
  (getParam q name).isSome

/-- Settings as resolved by `import_from_settings`, with the default value
each call site in the source passes. `OIDC_REDIRECT_REQUIRE_HTTPS` keeps
`none` for "not configured" because its default is the per-request value
`request.is_secure()`. -/
structure Settings where
  LOGIN_REDIRECT_URL_FAILURE : String := "/"
  LOGIN_REDIRECT_URL : String := "/"
  OIDC_RENEW_ID_TOKEN_EXPIRY_SECONDS : Nat := 900
  OIDC_REDIRECT_REQUIRE_HTTPS : Option Bool := none
  OIDC_REDIRECT_ALLOWED_HOSTS : List String := []
  LOGOUT_REDIRECT_URL : String := "/"
deriving Repr, DecidableEq

/-- All settings left at their defaults. -/
def defaultSettings : Settings := {}

/-- Outcome of the callback view: an `HttpResponseRedirect`, or the
`SuspiciousOperation` exception escaping the handler. -/
inductive CallbackOutcome where
  | redirect (url : String)
  | suspicious (msg : String)
deriving Repr, DecidableEq

/-- The message of the `SuspiciousOperation` raised on a state mismatch. -/
def stateMismatchMsg : String :=
  "Session `oidc_state` does not match the OIDC callback state"

/-- Result of one run of `OIDCAuthenticationCallbackView.get`: the outcome,
the final session and authentication flag, which user (if any) was logged
in by `auth.login`, and — instrumentation of the single external call —
the exact `(request, nonce)` argument passed to `auth.authenticate`
(`none` = the backend was never invoked). -/
structure HandlerResult where
  response : CallbackOutcome
  session : Session
  user_is_authenticated : Bool
  loggedInUser : Option User := none
  backendArg : Option (Request × Option String) := none
deriving Repr, DecidableEq

/-- The external authentication backend `auth.authenticate(request=..., nonce=...)`:
code exchange, token verification and principal resolution, outside this
repository. -/
abbrev Backend := Request → Option String → Option User

/-- Property `success_url`: `request.session.get('oidc_login_next', None) or
LOGIN_REDIRECT_URL` (Python `or`: `None` and `""` fall back to the default). -/
def success_url (settings : Settings) (session : Session) : String :=
  match session.oidc_login_next with
  | some next_url => if next_url == "" then settings.LOGIN_REDIRECT_URL else next_url
  | none => settings.LOGIN_REDIRECT_URL

/-- Method `login_failure`: redirect to `LOGIN_REDIRECT_URL_FAILURE`,
touching nothing else. -/
def login_failure (settings : Settings) (session : Session)
    (authed : Bool) : HandlerResult :=
  { response := .redirect settings.LOGIN_REDIRECT_URL_FAILURE
    session := session
    user_is_authenticated := authed }

/-- Method `login_success`: `auth.login` the user, store
`oidc_id_token_expiration = time.time() + OIDC_RENEW_ID_TOKEN_EXPIRY_SECONDS`
in the session, redirect to `success_url`. -/
def login_success (settings : Settings) (now : Nat) (session : Session)
    (user : User) : HandlerResult :=
  let session := { session with
    oidc_id_token_expiration :=
      some (now + settings.OIDC_RENEW_ID_TOKEN_EXPIRY_SECONDS) }
  { response := .redirect (success_url settings session)
    session := session
    user_is_authenticated := true
    loggedInUser := some user }

/-- Session after the handler's first action, lines 66-69 of the source:
`nonce = request.session.get('oidc_nonce'); if nonce: del
request.session['oidc_nonce']`. -/
def consumedSession (request : Request) : Session :=
  if truthy request.session.oidc_nonce then
    { request.session with oidc_nonce := none }
  else request.session

/-- Instrumentation helper: a handler result together with the recorded
argument of the `auth.authenticate` call that produced it. -/
def withBackendArg (h : HandlerResult) (arg : Request × Option String) :
    HandlerResult :=
  { h with backendArg := some arg }

/-- Handler `OIDCAuthenticationCallbackView.get`, line by line:
read and (if truthy) delete `oidc_nonce` (`consumedSession`); error branch
with defensive logout; code branch with the missing-state check, the
state-mismatch `SuspiciousOperation`, the backend call
(`auth.authenticate(request=request, nonce=nonce)`, `nonce` being the
pre-deletion value) and the active-principal check; fallthrough to
`login_failure`. In the error branch the user ends up unauthenticated
whether or not they were (`auth.logout` under
`request.user.is_authenticated`, then the source's assert). -/
def callbackGet (settings : Settings) (backend : Backend) (now : Nat)
    (request : Request) : HandlerResult :=
  if truthy (getParam request.query "error") then
    login_failure settings (consumedSession request) false
  else if hasParam request.query "code" && hasParam request.query "state" then
    if (consumedSession request).oidc_state.isNone then
      login_failure settings (consumedSession request) request.user_is_authenticated
    else if !(getParam request.query "state" == (consumedSession request).oidc_state) then
      { response := .suspicious stateMismatchMsg
        session := consumedSession request
        user_is_authenticated := request.user_is_authenticated }
    else
      match backend { request with session := consumedSession request }
          request.session.oidc_nonce with
      | some user =>
        if user.is_active then
          withBackendArg (login_success settings now (consumedSession request) user)
            ({ request with session := consumedSession request },
              request.session.oidc_nonce)
        else
          withBackendArg
            (login_failure settings (consumedSession request)
              request.user_is_authenticated)
            ({ request with session := consumedSession request },
              request.session.oidc_nonce)
      | none =>
        withBackendArg
          (login_failure settings (consumedSession request)
            request.user_is_authenticated)
          ({ request with session := consumedSession request },
            request.session.oidc_nonce)
  else
    login_failure settings (consumedSession request) request.user_is_authenticated

/-- Function `get_next_url`, parameterised by Django's `is_safe_url`
(`safeUrl url allowed_hosts require_https`), which the source calls with
`allowed_hosts = list(OIDC_REDIRECT_ALLOWED_HOSTS) + [request.get_host()]`
and `require_https = OIDC_REDIRECT_REQUIRE_HTTPS` defaulting to
`request.is_secure()`. -/
def get_next_url (settings : Settings)
    (safeUrl : String → List String → Bool → Bool)
    (request : Request) (redirect_field_name : String) : Option String :=
  match getParam request.query redirect_field_name with
  | some next_url =>
    if next_url == "" then none
    else
      let requireHttps := settings.OIDC_REDIRECT_REQUIRE_HTTPS.getD request.secure
      let hosts := settings.OIDC_REDIRECT_ALLOWED_HOSTS ++ [request.host]
      if safeUrl next_url hosts requireHttps then some next_url else none
  | none => none

/-- Outcome of the logout view: a redirect, or Django's
`HttpResponseNotAllowed` (HTTP 405) produced by `View.dispatch` when the
verb has no handler. -/
inductive LogoutOutcome where
  | redirect (url : String)
  | methodNotAllowed
deriving Repr, DecidableEq

/-- Result of one run of the logout view. -/
structure LogoutResult where
  response : LogoutOutcome
  user_is_authenticated : Bool
deriving Repr, DecidableEq

/-- Method `OIDCLogoutView.post`. `opLogoutUrlMethod` models
`import_string(OIDC_OP_LOGOUT_URL_METHOD)` for a configured (truthy)
`OIDC_OP_LOGOUT_URL_METHOD` setting; `none` models the default `''`. -/
def logoutPost (settings : Settings)
    (opLogoutUrlMethod : Option (Request → String))
    (request : Request) : LogoutResult :=
  let logout_url := settings.LOGOUT_REDIRECT_URL
  if request.user_is_authenticated then
    let logout_url :=
      match opLogoutUrlMethod with
      | some buildUrl => buildUrl request
      | none => logout_url
    { response := .redirect logout_url, user_is_authenticated := false }
  else
    { response := .redirect logout_url
      user_is_authenticated := request.user_is_authenticated }

/-- Verbs `OIDCLogoutView.http_method_names` declares. -/
def logoutHttpMethodNames : List String := ["get", "post"]

/-- Django `View.dispatch` specialised to `OIDCLogoutView`: a lowercased
verb is served iff it is in `http_method_names` and the class defines a
handler method of that name. `OIDCLogoutView` defines only `post`, so
every other verb — including `get`, although listed — resolves to
`http_method_not_allowed`. -/
def logoutDispatch (settings : Settings)
    (opLogoutUrlMethod : Option (Request → String))
    (verb : String) (request : Request) : LogoutResult :=
  if verb ∈ logoutHttpMethodNames && verb == "post" then
    logoutPost settings opLogoutUrlMethod request
  else
    { response := .methodNotAllowed
      user_is_authenticated := request.user_is_authenticated }

/-- Condition (on the incoming request) under which `callbackGet` reaches
the `auth.authenticate` call: no truthy `error`, both `code` and `state`
present, a stored `oidc_state` exists and equals the callback `state`. -/
def reachesBackend (request : Request) : Bool :=
  !truthy (getParam request.query "error") &&
  (hasParam request.query "code" && hasParam request.query "state") &&
  !request.session.oidc_state.isNone &&
  (getParam request.query "state" == request.session.oidc_state)

/-- Condition (on the incoming request) under which `callbackGet` raises
the state-mismatch `SuspiciousOperation`: no truthy `error`, both `code`
and `state` present, a stored `oidc_state` exists and differs from the
callback `state`. -/
def stateMismatch (request : Request) : Bool :=
  !truthy (getParam request.query "error") &&
  (hasParam request.query "code" && hasParam request.query "state") &&
  !request.session.oidc_state.isNone &&
  !(getParam request.query "state" == request.session.oidc_state)

/-- A backend that accepts every code exchange and returns an active
principal (concrete instance used for replay analysis). -/
def replayBackend : Backend := fun _ _ => some { is_active := true }

/-- A well-formed callback request: fresh `code`/`state`, with the session
holding the matching `oidc_state` and a nonce, as left by the
initiation view. -/
def replayRequest : Request :=
  { query := [("code", "c"), ("state", "s")]
    session := { oidc_nonce := some "n", oidc_state := some "s" } }

/-- Outcome of the first delivery of `replayRequest`. -/
def replayFirst : HandlerResult :=
  callbackGet defaultSettings replayBackend 100 replayRequest

/-- Outcome of delivering the identical callback a second time against the
session (and authentication state) left by the first delivery. -/
def replaySecond : HandlerResult :=
  callbackGet defaultSettings replayBackend 200
    { replayRequest with
      session := replayFirst.session
      user_is_authenticated := replayFirst.user_is_authenticated }

/-! ## General lemmas about the callback handler -/

/-- Consuming the nonce leaves `oidc_state` untouched. -/
theorem consumedSession_oidc_state (request : Request) :
    (consumedSession request).oidc_state = request.session.oidc_state := by
  unfold consumedSession
  split <;> rfl

/-- Consuming the nonce leaves `oidc_login_next` untouched. -/
theorem consumedSession_oidc_login_next (request : Request) :
    (consumedSession request).oidc_login_next = request.session.oidc_login_next := by
  unfold consumedSession
  split <;> rfl

/-- After consumption the session nonce is gone exactly when it was truthy. -/
theorem consumedSession_oidc_nonce (request : Request) :
    (consumedSession request).oidc_nonce =
      if truthy request.session.oidc_nonce then none
      else request.session.oidc_nonce := by
  unfold consumedSession
  split <;> rfl

/-- The callback handler never modifies the stored `oidc_state`. -/
theorem callbackGet_session_oidc_state (settings : Settings) (backend : Backend)
    (now : Nat) (request : Request) :
    (callbackGet settings backend now request).session.oidc_state =
      request.session.oidc_state := by
  unfold callbackGet login_failure login_success withBackendArg
  repeat' split
  all_goals simp [consumedSession_oidc_state]

/-- The callback handler never modifies the stored `oidc_login_next`. -/
theorem callbackGet_session_oidc_login_next (settings : Settings)
    (backend : Backend) (now : Nat) (request : Request) :
    (callbackGet settings backend now request).session.oidc_login_next =
      request.session.oidc_login_next := by
  unfold callbackGet login_failure login_success withBackendArg
  repeat' split
  all_goals simp [consumedSession_oidc_login_next]

/-- The session nonce after the handler runs: removed when it was truthy,
untouched otherwise — in every branch. -/
theorem callbackGet_session_oidc_nonce (settings : Settings) (backend : Backend)
    (now : Nat) (request : Request) :
    (callbackGet settings backend now request).session.oidc_nonce =
      if truthy request.session.oidc_nonce then none
      else request.session.oidc_nonce := by
  unfold callbackGet login_failure login_success withBackendArg
  repeat' split
  all_goals simp_all [consumedSession_oidc_nonce, consumedSession]

/-- Characterisation of the single external call: `auth.authenticate` is
invoked iff `reachesBackend` holds, and then receives the request with the
consumed session together with the pre-consumption nonce value. -/
theorem callbackGet_backendArg (settings : Settings) (backend : Backend)
    (now : Nat) (request : Request) :
    (callbackGet settings backend now request).backendArg =
      if reachesBackend request then
        some ({ request with session := consumedSession request },
          request.session.oidc_nonce)
      else none := by
  unfold callbackGet reachesBackend login_failure login_success withBackendArg
  repeat' split
  all_goals simp_all [consumedSession_oidc_state]

/-! ## Claim theorems -/

/-- C2: for every callback whose session holds an `oidc_nonce` value (a
truthy one — Python's `if nonce:` treats `""` like absence), the nonce is
deleted as the handler's first action: in every branch and outcome
(error branch, failure redirects, the `SuspiciousOperation` raise, and
success) the final session holds no `oidc_nonce`, and the backend call —
when one happens at all — already receives the nonce-free session, with
the pre-deletion nonce passed only as the explicit `nonce` argument. -/
theorem callback_nonce_consumed (settings : Settings) (backend : Backend)
    (now : Nat) (request : Request)
    (hn : truthy request.session.oidc_nonce = true) :
    (callbackGet settings backend now request).session.oidc_nonce = none ∧
    ∀ r n, (callbackGet settings backend now request).backendArg = some (r, n) →
      r.session.oidc_nonce = none ∧ n = request.session.oidc_nonce := by
  refine ⟨?_, ?_⟩
  · rw [callbackGet_session_oidc_nonce, hn]
    rfl
  · intro r n h
    rw [callbackGet_backendArg] at h
    split at h
    · simp only [Option.some.injEq, Prod.mk.injEq] at h
      obtain ⟨hr, hn2⟩ := h
      subst hr
      subst hn2
      constructor
      · simp [consumedSession, hn]
      · rfl
    · cases h

/-- Witness for C2 at a concrete request holding a nonce. -/
theorem callback_nonce_consumed_witness :
    (callbackGet defaultSettings (fun _ _ => none) 0
      { query := []
        session := { oidc_nonce := some "n" } }).session.oidc_nonce = none :=
  (callback_nonce_consumed defaultSettings (fun _ _ => none) 0
    { query := []
      session := { oidc_nonce := some "n" } } rfl).1

/-- C4: for every callback whose query carries a (truthy) OP-reported
`error` parameter, whatever the prior session and authentication state,
the handler leaves the user agent unauthenticated (defensive logout) and
responds with a redirect to the configured failure URL; the backend is
never consulted. -/
theorem callback_error_branch_logs_out (settings : Settings) (backend : Backend)
    (now : Nat) (request : Request)
    (herr : truthy (getParam request.query "error") = true) :
    (callbackGet settings backend now request).user_is_authenticated = false ∧
    (callbackGet settings backend now request).response =
      CallbackOutcome.redirect settings.LOGIN_REDIRECT_URL_FAILURE := by
  unfold callbackGet login_failure
  simp [herr]

/-- Witness for C4: an authenticated session hit by an `error` callback. -/
theorem callback_error_branch_logs_out_witness :
    (callbackGet defaultSettings (fun _ _ => none) 0
      { query := [("error", "access_denied")]
        session := { oidc_nonce := some "n", oidc_state := some "s" }
        user_is_authenticated := true }).user_is_authenticated = false ∧
    (callbackGet defaultSettings (fun _ _ => none) 0
      { query := [("error", "access_denied")]
        session := { oidc_nonce := some "n", oidc_state := some "s" }
        user_is_authenticated := true }).response =
      CallbackOutcome.redirect defaultSettings.LOGIN_REDIRECT_URL_FAILURE :=
  callback_error_branch_logs_out defaultSettings (fun _ _ => none) 0
    { query := [("error", "access_denied")]
      session := { oidc_nonce := some "n", oidc_state := some "s" }
      user_is_authenticated := true } rfl

/-- C5: for every callback carrying both `code` and `state` whose session
holds no `oidc_state` key, the handler redirects to the configured failure
URL and the external authentication backend is never invoked. -/
theorem callback_missing_context_fails (settings : Settings) (backend : Backend)
    (now : Nat) (request : Request)
    (hcode : hasParam request.query "code" = true)
    (hstate : hasParam request.query "state" = true)
    (hctx : request.session.oidc_state = none) :
    (callbackGet settings backend now request).response =
      CallbackOutcome.redirect settings.LOGIN_REDIRECT_URL_FAILURE ∧
    (callbackGet settings backend now request).backendArg = none := by
  unfold callbackGet login_failure
  cases herr : truthy (getParam request.query "error") <;>
    simp_all [consumedSession_oidc_state, hcode, hstate, hctx]

/-- Witness for C5: `code` and `state` present, no stored state. -/
theorem callback_missing_context_fails_witness :
    (callbackGet defaultSettings (fun _ _ => none) 0
      { query := [("code", "c"), ("state", "s")] }).response =
      CallbackOutcome.redirect defaultSettings.LOGIN_REDIRECT_URL_FAILURE ∧
    (callbackGet defaultSettings (fun _ _ => none) 0
      { query := [("code", "c"), ("state", "s")] }).backendArg = none :=
  callback_missing_context_fails defaultSettings (fun _ _ => none) 0
    { query := [("code", "c"), ("state", "s")] } rfl rfl rfl

/-- C10: an `error` query parameter equal to the empty string is falsy, so
the error branch is not taken: no defensive logout happens (an already
authenticated user stays authenticated in every branch), the code branch
is evaluated when `code` and `state` are present (in particular the
backend is reached whenever the state checks pass), and without `code`
and `state` the handler falls through to the failure redirect without
touching the backend. -/
theorem callback_empty_error_not_error_branch (settings : Settings)
    (backend : Backend) (now : Nat) (request : Request)
    (he : getParam request.query "error" = some "") :
    (request.user_is_authenticated = true →
      (callbackGet settings backend now request).user_is_authenticated = true) ∧
    ((hasParam request.query "code" && hasParam request.query "state") = false →
      (callbackGet settings backend now request).response =
        CallbackOutcome.redirect settings.LOGIN_REDIRECT_URL_FAILURE ∧
      (callbackGet settings backend now request).backendArg = none) ∧
    (reachesBackend request = true →
      (callbackGet settings backend now request).backendArg.isSome = true) := by
  have herr : truthy (getParam request.query "error") = false := by
    rw [he]
    rfl
  refine ⟨?_, ?_, ?_⟩
  · intro ha
    unfold callbackGet login_failure login_success withBackendArg
    simp only [herr]
    repeat' split
    all_goals simp_all
  · intro hcs
    unfold callbackGet login_failure
    simp [herr, hcs]
  · intro hrb
    simp [callbackGet_backendArg, hrb]

/-- Witness for C10: `error=""` together with a matching `code`/`state`
pair; the user stays authenticated — no defensive logout happened. -/
theorem callback_empty_error_not_error_branch_witness :
    (callbackGet defaultSettings (fun _ _ => some { is_active := true }) 0
      { query := [("error", ""), ("code", "c"), ("state", "s")]
        session := { oidc_state := some "s" }
        user_is_authenticated := true }).user_is_authenticated = true :=
  (callback_empty_error_not_error_branch defaultSettings
    (fun _ _ => some { is_active := true }) 0
    { query := [("error", ""), ("code", "c"), ("state", "s")]
      session := { oidc_state := some "s" }
      user_is_authenticated := true } rfl).1 rfl

/-- C1 counterexample: a callback carrying `code`, `state` AND a truthy
`error` parameter, with a stored state differing from the callback state,
takes the error branch first and is answered with the ordinary failure
redirect — no `SuspiciousOperation` is raised, contradicting the claim as
stated for this input. -/
theorem callback_mismatch_with_error_counterexample :
    (callbackGet defaultSettings (fun _ _ => none) 0
      { query := [("error", "access_denied"), ("code", "c"), ("state", "x")]
        session := { oidc_state := some "y" } }).response =
      CallbackOutcome.redirect "/" := rfl

/-- C1 (amended): for every callback carrying `code` and `state` but no
truthy `error` parameter, where the session stores an `oidc_state`
differing from the callback `state`, the handler raises the
state-mismatch `SuspiciousOperation` — it neither redirects nor consults
the backend. The error-branch priority is the only amendment. -/
theorem callback_state_mismatch_raises (settings : Settings) (backend : Backend)
    (now : Nat) (request : Request)
    (herr : truthy (getParam request.query "error") = false)
    (hcode : hasParam request.query "code" = true)
    (s t : String)
    (hs : getParam request.query "state" = some s)
    (hctx : request.session.oidc_state = some t)
    (hne : s ≠ t) :
    (callbackGet settings backend now request).response =
      CallbackOutcome.suspicious stateMismatchMsg ∧
    (callbackGet settings backend now request).backendArg = none := by
  unfold callbackGet login_failure
  simp_all [consumedSession_oidc_state, hasParam]

/-- Witness for the amended C1 at a concrete mismatching callback. -/
theorem callback_state_mismatch_raises_witness :
    (callbackGet defaultSettings (fun _ _ => none) 0
      { query := [("code", "c"), ("state", "x")]
        session := { oidc_state := some "y" } }).response =
      CallbackOutcome.suspicious stateMismatchMsg :=
  (callback_state_mismatch_raises defaultSettings (fun _ _ => none) 0
    { query := [("code", "c"), ("state", "x")]
      session := { oidc_state := some "y" } } rfl rfl "x" "y" rfl rfl
    (by decide)).1

/-- C7 counterexample: on a state-mismatch callback the handler does not
answer with a redirect at all — the `SuspiciousOperation` escapes (the
hosting framework renders it as an error response), refuting "the
response is always a 302-class redirect to the success or failure URL". -/
theorem callback_nonredirect_counterexample :
    (callbackGet defaultSettings (fun _ _ => none) 0
      { query := [("code", "c"), ("state", "a")]
        session := { oidc_state := some "b" } }).response =
      CallbackOutcome.suspicious stateMismatchMsg := rfl

/-- C7 (amended): for every GET callback, whatever query parameters and
session contents, the handler answers with a redirect to the failure URL
or to the success URL — except exactly under the state-mismatch
condition, where it instead raises `SuspiciousOperation` and no redirect
is produced. -/
theorem callback_response_redirect_or_suspicious (settings : Settings)
    (backend : Backend) (now : Nat) (request : Request) :
    (stateMismatch request = true →
      (callbackGet settings backend now request).response =
        CallbackOutcome.suspicious stateMismatchMsg) ∧
    (stateMismatch request = false →
      (callbackGet settings backend now request).response =
        CallbackOutcome.redirect settings.LOGIN_REDIRECT_URL_FAILURE ∨
      (callbackGet settings backend now request).response =
        CallbackOutcome.redirect
          (success_url settings (callbackGet settings backend now request).session)) := by
  constructor
  · intro hsm
    unfold stateMismatch at hsm
    unfold callbackGet login_failure
    cases hos : request.session.oidc_state <;>
      simp_all [consumedSession_oidc_state]
  · intro hsm
    unfold stateMismatch at hsm
    unfold callbackGet login_failure login_success withBackendArg
    repeat' split
    all_goals simp_all [consumedSession_oidc_state]

/-- Witness for the amended C7: the suspicious case at a concrete
mismatching input. -/
theorem callback_response_redirect_or_suspicious_witness :
    (callbackGet defaultSettings (fun _ _ => none) 0
      { query := [("code", "c"), ("state", "p")]
        session := { oidc_state := some "q" } }).response =
      CallbackOutcome.suspicious stateMismatchMsg :=
  (callback_response_redirect_or_suspicious defaultSettings (fun _ _ => none) 0
    { query := [("code", "c"), ("state", "p")]
      session := { oidc_state := some "q" } }).1 (by decide)

/-- C3 counterexample: delivering the identical `code`/`state` callback a
second time, against the session left by a first successful delivery,
does NOT fail at the stored-state checks — `oidc_state` is still present
and still matches, the backend is invoked again (with `nonce = None`) and,
for a backend that accepts the exchange, a session is established again
by the second call. -/
theorem callback_replay_counterexample :
    replayFirst.loggedInUser = some { is_active := true } ∧
    replaySecond.loggedInUser = some { is_active := true } ∧
    replaySecond.backendArg =
      some ({ replayRequest with
        session := replayFirst.session
        user_is_authenticated := true }, none) ∧
    replaySecond.response = CallbackOutcome.redirect "/" := by
  decide

/-- C3 (amended): the handler never consumes `oidc_state`, so a second
identical callback does not fail at the stored-state checks: whenever the
first delivery reached the backend, the second delivery of the same
request against the resulting session reaches the backend too — now with
`nonce = None`, the session nonce having been consumed by the first
delivery. Replay defence at the second delivery therefore rests on the
backend's nonce verification, not on the handler's state checks. -/
theorem callback_replay_reaches_backend_without_nonce (settings : Settings)
    (backend : Backend) (now now2 : Nat) (request : Request)
    (hn : truthy request.session.oidc_nonce = true)
    (hb : (callbackGet settings backend now request).backendArg.isSome = true) :
    (callbackGet settings backend now request).session.oidc_state =
      request.session.oidc_state ∧
    (callbackGet settings backend now2
      { request with
        session := (callbackGet settings backend now request).session
        user_is_authenticated :=
          (callbackGet settings backend now request).user_is_authenticated
      }).backendArg =
      some ({ request with
        session := (callbackGet settings backend now request).session
        user_is_authenticated :=
          (callbackGet settings backend now request).user_is_authenticated },
        none) := by
  have hst := callbackGet_session_oidc_state settings backend now request
  have hnn := callbackGet_session_oidc_nonce settings backend now request
  rw [hn] at hnn
  simp only [if_true] at hnn
  have hrb1 : reachesBackend request = true := by
    rw [callbackGet_backendArg] at hb
    by_cases h : reachesBackend request = true
    · exact h
    · simp [h] at hb
  refine ⟨hst, ?_⟩
  rw [callbackGet_backendArg]
  have hrb2 : reachesBackend
      { request with
        session := (callbackGet settings backend now request).session
        user_is_authenticated :=
          (callbackGet settings backend now request).user_is_authenticated } = true := by
    unfold reachesBackend at hrb1 ⊢
    simp_all
  simp only [hrb2, if_true]
  simp [consumedSession, hnn, truthy]

/-- Witness for the amended C3: the replay scenario instantiated with the
all-accepting backend; the second delivery's backend call carries no
nonce. -/
theorem callback_replay_reaches_backend_without_nonce_witness :
    (callbackGet defaultSettings replayBackend 100
      replayRequest).session.oidc_state = replayRequest.session.oidc_state ∧
    (callbackGet defaultSettings replayBackend 200
      { replayRequest with
        session := (callbackGet defaultSettings replayBackend 100
          replayRequest).session
        user_is_authenticated :=
          (callbackGet defaultSettings replayBackend 100
            replayRequest).user_is_authenticated }).backendArg =
      some ({ replayRequest with
        session := (callbackGet defaultSettings replayBackend 100
          replayRequest).session
        user_is_authenticated :=
          (callbackGet defaultSettings replayBackend 100
            replayRequest).user_is_authenticated },
        none) :=
  callback_replay_reaches_backend_without_nonce defaultSettings replayBackend
    100 200 replayRequest rfl rfl

/-- C6: for every code-branch callback (no truthy `error`, `code` present)
whose callback `state` matches the stored `oidc_state`, when the backend
returns an active principal: that principal is logged in,
`oidc_id_token_expiration` is set to now plus the configured renewal
interval (default 900 seconds), and the response redirects to the stored
`oidc_login_next` when one is present — the initiation view only ever
stores a non-empty validated URL or nothing, hence the non-emptiness
hypothesis — else to the configured success URL (default `/`). -/
theorem callback_success_establishes_session (settings : Settings)
    (backend : Backend) (now : Nat) (request : Request) (u : User)
    (herr : truthy (getParam request.query "error") = false)
    (hcode : hasParam request.query "code" = true)
    (s : String)
    (hs : getParam request.query "state" = some s)
    (hctx : request.session.oidc_state = some s)
    (hbk : ∀ r n, backend r n = some u)
    (hact : u.is_active = true)
    (hnext : request.session.oidc_login_next ≠ some "") :
    (callbackGet settings backend now request).user_is_authenticated = true ∧
    (callbackGet settings backend now request).loggedInUser = some u ∧
    (callbackGet settings backend now request).session.oidc_id_token_expiration =
      some (now + settings.OIDC_RENEW_ID_TOKEN_EXPIRY_SECONDS) ∧
    (callbackGet settings backend now request).response =
      CallbackOutcome.redirect
        (request.session.oidc_login_next.getD settings.LOGIN_REDIRECT_URL) := by
  unfold callbackGet login_failure login_success withBackendArg success_url
  cases hln : request.session.oidc_login_next <;>
    simp_all [consumedSession_oidc_state, consumedSession_oidc_login_next,
      hasParam]

/-- Witness for C6: a fresh matching callback with a stored
`oidc_login_next`; the session is established, the expiration is
`1000 + 900` and the redirect goes to the stored next URL. -/
theorem callback_success_establishes_session_witness :
    (callbackGet defaultSettings (fun _ _ => some { is_active := true }) 1000
      { query := [("code", "c"), ("state", "s")]
        session := { oidc_nonce := some "n", oidc_state := some "s"
                     oidc_login_next := some "/dashboard" } }).user_is_authenticated
        = true ∧
    (callbackGet defaultSettings (fun _ _ => some { is_active := true }) 1000
      { query := [("code", "c"), ("state", "s")]
        session := { oidc_nonce := some "n", oidc_state := some "s"
                     oidc_login_next := some "/dashboard" } }).loggedInUser =
      some { is_active := true } ∧
    (callbackGet defaultSettings (fun _ _ => some { is_active := true }) 1000
      { query := [("code", "c"), ("state", "s")]
        session := { oidc_nonce := some "n", oidc_state := some "s"
                     oidc_login_next := some "/dashboard" } }).session.oidc_id_token_expiration
        = some 1900 ∧
    (callbackGet defaultSettings (fun _ _ => some { is_active := true }) 1000
      { query := [("code", "c"), ("state", "s")]
        session := { oidc_nonce := some "n", oidc_state := some "s"
                     oidc_login_next := some "/dashboard" } }).response =
      CallbackOutcome.redirect "/dashboard" :=
  callback_success_establishes_session defaultSettings
    (fun _ _ => some { is_active := true }) 1000
    { query := [("code", "c"), ("state", "s")]
      session := { oidc_nonce := some "n", oidc_state := some "s"
                   oidc_login_next := some "/dashboard" } }
    { is_active := true } rfl rfl "s" rfl rfl (fun _ _ => rfl) rfl (by decide)

/-- C8: `get_next_url` returns `none` when the named query parameter is
absent or empty; otherwise it returns the candidate exactly when
`is_safe_url` accepts it for `OIDC_REDIRECT_ALLOWED_HOSTS` plus the
request's own host, with `require_https` defaulting to the request's
transport security. It is a total pure function of its inputs: no
exception and no side effect is modelled because none exists in the
source. -/
theorem get_next_url_spec (settings : Settings)
    (safeUrl : String → List String → Bool → Bool)
    (request : Request) (redirect_field_name : String) :
    ((getParam request.query redirect_field_name = none ∨
      getParam request.query redirect_field_name = some "") →
      get_next_url settings safeUrl request redirect_field_name = none) ∧
    (∀ u, getParam request.query redirect_field_name = some u → u ≠ "" →
      get_next_url settings safeUrl request redirect_field_name =
        if safeUrl u (settings.OIDC_REDIRECT_ALLOWED_HOSTS ++ [request.host])
            (settings.OIDC_REDIRECT_REQUIRE_HTTPS.getD request.secure) then
          some u
        else none) := by
  constructor
  · rintro (h | h) <;> simp [get_next_url, h]
  · intro u hu hne
    simp [get_next_url, hu, hne]

/-- Witness for C8: a relative URL accepted by the safety predicate is
returned unchanged. -/
theorem get_next_url_spec_witness :
    get_next_url defaultSettings (fun u _ _ => u == "/dashboard")
      { query := [("next", "/dashboard")], host := "example.com" } "next" =
      some "/dashboard" :=
  ((get_next_url_spec defaultSettings (fun u _ _ => u == "/dashboard")
    { query := [("next", "/dashboard")], host := "example.com" } "next").2
    "/dashboard" rfl (by decide)).trans (by decide)

/-- C9 (code bug): `OIDCLogoutView` lists both `get` and `post` in
`http_method_names` but defines only a `post` handler, so a GET to the
logout route is answered with HTTP 405 method-not-allowed instead of a
redirect; POST behaves as the claim says, with and without an active
session (a redirect to the configured post-logout URL, and logout of an
already-logged-out agent is not an error). -/
theorem logout_get_method_not_allowed :
    (logoutDispatch defaultSettings none "get"
      { user_is_authenticated := true }).response =
      LogoutOutcome.methodNotAllowed ∧
    (logoutDispatch defaultSettings none "post"
      { user_is_authenticated := true }).response =
      LogoutOutcome.redirect "/" ∧
    (logoutDispatch defaultSettings none "post"
      { user_is_authenticated := false }).response =
      LogoutOutcome.redirect "/" := by
  refine ⟨rfl, rfl, rfl⟩

end MozillaDjangoOidc
